import Mathlib

/-!
# Verification of the Supply-Chain-Forecasting-Tool core

Shallow embedding of the quantitative core of the repository
(`src/utils/forecasting.ts`, `src/utils/supplyChain.ts`, and the
near-duplicate forecasting module preserved as `src/unnamed/part_001`),
together with theorems settling the frozen claims about it.

Modelling conventions:
* JavaScript numbers are modelled as ideal real numbers (IEEE-754 rounding
  error is out of scope); the non-finite values `NaN`, `Infinity` and
  `-Infinity`, which the source can produce through division by zero and
  out-of-bounds array reads (`undefined` entering arithmetic), are modelled
  explicitly by the `JsNum` type wherever a relevant code path can produce
  them.  JavaScript's negative zero is not distinguished from zero.
* `Math.round x` is `⌊x + 1/2⌋` (round half towards positive infinity),
  which matches JavaScript on all reals.
* `x || 1` on a number is `if x = 0 then 1 else x` (`jsOr1`).
* Calendar-date strings are carried around unchanged; the two date
  computations of the source (`setMonth`-advance for forecast dates and
  `setDate`-subtract for lead-time offset dates) are parameters of the
  embedding, since no claim talks about date values.
-/

/-- A JavaScript number: an ideal real, or one of the three non-finite
values JavaScript arithmetic can produce. -/
inductive JsNum where
  | num (x : ℝ)
  | nan
  | inf
  | ninf

namespace JsNum

/-- JavaScript addition. -/
def jsAdd : JsNum → JsNum → JsNum
  | num a, num b => num (a + b)
  | nan, _ => nan
  | _, nan => nan
  | inf, ninf => nan
  | ninf, inf => nan
  | inf, _ => inf
  | _, inf => inf
  | ninf, _ => ninf
  | _, ninf => ninf

/-- JavaScript negation. -/
def jsNeg : JsNum → JsNum
  | num a => num (-a)
  | nan => nan
  | inf => ninf
  | ninf => inf

/-- JavaScript subtraction. -/
def jsSub (a b : JsNum) : JsNum := jsAdd a (jsNeg b)

/-- JavaScript multiplication (`Infinity * 0 = NaN`, signs respected). -/
noncomputable def jsMul : JsNum → JsNum → JsNum
  | num a, num b => num (a * b)
  | nan, _ => nan
  | _, nan => nan
  | inf, inf => inf
  | inf, ninf => ninf
  | ninf, inf => ninf
  | ninf, ninf => inf
  | inf, num b => if b = 0 then nan else if 0 < b then inf else ninf
  | num a, inf => if a = 0 then nan else if 0 < a then inf else ninf
  | ninf, num b => if b = 0 then nan else if 0 < b then ninf else inf
  | num a, ninf => if a = 0 then nan else if 0 < a then ninf else inf

/-- JavaScript division (`0/0 = NaN`, `x/0 = ±Infinity` for `x ≠ 0`;
negative zero is not modelled). -/
noncomputable def jsDiv : JsNum → JsNum → JsNum
  | num a, num b =>
      if b = 0 then (if a = 0 then nan else if 0 < a then inf else ninf)
      else num (a / b)
  | nan, _ => nan
  | _, nan => nan
  | inf, inf => nan
  | inf, ninf => nan
  | ninf, inf => nan
  | ninf, ninf => nan
  | inf, num b => if 0 ≤ b then inf else ninf
  | ninf, num b => if 0 ≤ b then ninf else inf
  | num _, inf => num 0
  | num _, ninf => num 0

/-- JavaScript `Math.max` of two values (`NaN` is absorbing). -/
noncomputable def jsMax : JsNum → JsNum → JsNum
  | num a, num b => num (max a b)
  | nan, _ => nan
  | _, nan => nan
  | inf, _ => inf
  | _, inf => inf
  | ninf, b => b
  | a, ninf => a

/-- JavaScript `Math.round`: `⌊x + 1/2⌋` on finite values. -/
noncomputable def jsRound : JsNum → JsNum
  | num x => num (⌊x + 1/2⌋ : ℤ)
  | nan => nan
  | inf => inf
  | ninf => ninf

/-- JavaScript `Math.sqrt` on a real argument (`NaN` for negatives). -/
noncomputable def jsSqrt (x : ℝ) : JsNum :=
  if x < 0 then nan else num (Real.sqrt x)

/-- Reading `l[i]` in JavaScript: out-of-bounds reads give `undefined`,
which becomes `NaN` as soon as it enters arithmetic; we fold that into the
read itself since every read of the source feeds arithmetic. -/
def jsIndex (l : List ℝ) (i : ℕ) : JsNum :=
  match l.get? i with
  | some v => num v
  | none => nan

/-- Summing a list of JavaScript numbers with `reduce((a, b) => a + b, 0)`. -/
def jsSum (l : List JsNum) : JsNum := l.foldl jsAdd (num 0)

@[simp] theorem jsAdd_num (a b : ℝ) : jsAdd (num a) (num b) = num (a + b) := rfl

@[simp] theorem jsSub_num (a b : ℝ) : jsSub (num a) (num b) = num (a - b) := by
  simp [jsSub, jsAdd, jsNeg, sub_eq_add_neg]

@[simp] theorem jsMul_num (a b : ℝ) : jsMul (num a) (num b) = num (a * b) := rfl

@[simp] theorem jsMax_num (a b : ℝ) : jsMax (num a) (num b) = num (max a b) := rfl

@[simp] theorem jsRound_num (x : ℝ) : jsRound (num x) = num (⌊x + 1/2⌋ : ℤ) := rfl

@[simp] theorem jsDiv_num_of_ne (a b : ℝ) (hb : b ≠ 0) :
    jsDiv (num a) (num b) = num (a / b) := by
  simp [jsDiv, hb]

@[simp] theorem jsSqrt_of_nonneg (x : ℝ) (hx : 0 ≤ x) :
    jsSqrt x = num (Real.sqrt x) := by
  simp [jsSqrt, not_lt.mpr hx]

@[simp] theorem jsAdd_nan_left (b : JsNum) : jsAdd nan b = nan := by
  cases b <;> rfl

@[simp] theorem jsMax_num_nan (a : ℝ) : jsMax (num a) nan = nan := rfl

theorem jsSum_num (l : List ℝ) : jsSum (l.map num) = num l.sum := by
  have h : ∀ (l : List ℝ) (a : ℝ),
      (l.map num).foldl jsAdd (num a) = num (a + l.sum) := by
    intro l
    induction l with
    | nil => intro a; simp
    | cons x xs ih =>
        intro a
        simp only [List.map_cons, List.foldl_cons, jsAdd_num, List.sum_cons, ih]
        ring_nf
  simpa using h l 0

end JsNum

open JsNum

/-! ## Data model (`src/types.ts`) -/

/-- `DataPoint` from `src/types.ts` (one period's demand for one item). -/
structure DataPoint where
  date : String
  sku : String
  category : String
  quantity : ℝ

/-- `ForecastMethodology` from `src/types.ts`. -/
inductive ForecastMethodology where
  | HOLT_WINTERS
  | PROPHET
  | ARIMA
  | LINEAR
deriving DecidableEq

/-- `ForecastPoint` from `src/types.ts` together with the enrichment fields
written by `calculateSupplyChainMetrics` in `src/utils/supplyChain.ts`
(optional fields are `Option`s, absent = `none` = `undefined`). -/
structure ForecastPoint where
  date : String
  historical : Option ℝ := none
  forecast : JsNum
  lowerBound : Option JsNum := none
  upperBound : Option JsNum := none
  isForecast : Bool
  projectedInventory : Option JsNum := none
  safetyStock : Option JsNum := none
  reorderPoint : Option JsNum := none
  scenarioForecast : Option JsNum := none
  projectedRevenue : Option JsNum := none
  projectedMargin : Option JsNum := none
  inventoryValue : Option JsNum := none

/-- `Scenario` from `src/types.ts`; `month` is a 1-based index into the
forecast horizon.  It is compared for equality with an integer counter, so
a natural number captures every scenario that can ever match. -/
structure Scenario where
  id : String
  name : String
  month : ℕ
  multiplier : ℝ

/-- `ProductAttribute` from `src/types.ts`. -/
structure ProductAttribute where
  sku : String
  leadTimeDays : ℝ
  unitCost : ℝ
  sellingPrice : ℝ
  serviceLevel : ℝ

/-! ## Statistics helpers (`src/utils/forecasting.ts`) -/

/-- JavaScript `x || 1` on a number that is known to be finite. -/
noncomputable def jsOr1 (x : ℝ) : ℝ := if x = 0 then 1 else x

/-- `getStdDev` from `src/utils/forecasting.ts`: population standard
deviation, `0` on the empty list. -/
noncomputable def getStdDev (values : List ℝ) : ℝ :=
  if values.length = 0 then 0
  else
    Real.sqrt ((values.map fun x =>
      (x - values.sum / values.length) ^ 2).sum / values.length)

/-- `getZMultiplier` from `src/utils/forecasting.ts`.  Note the fallback
below the 80-band is `1.96` ("Default to 95%"), not the lowest band. -/
noncomputable def getZMultiplier (conf : ℝ) : ℝ :=
  if conf ≥ 99 then 2.576
  else if conf ≥ 95 then 1.96
  else if conf ≥ 90 then 1.645
  else if conf ≥ 85 then 1.44
  else if conf ≥ 80 then 1.28
  else 1.96

/-! ## Forecast methods (`src/utils/forecasting.ts`)

`runHoltWinters`, `runArima` and `runLinear` only read `values[0]`,
`values[1]`, `values[n-1]` and divide by `n` and by an OLS denominator;
for the `length ≥ 3` inputs `calculateForecast` feeds them (and every
claim assumes) all of these are in bounds and nonzero, so they are
modelled with plain reals (out-of-range JavaScript behaviour at
`length < 2` — `undefined`/`NaN` — is unreachable from the orchestrator).
`runProphet` genuinely indexes out of bounds on reachable inputs
(history shorter than 12 with a longer horizon), so its output lives in
`JsNum`. -/

/-- One pass of the Holt-Winters history loop
(`level`/`trend`/`seasonal` update for `values[i]`). -/
noncomputable def hwStep (L : ℕ) (st : ℝ × ℝ × List ℝ) (iv : ℕ × ℝ) :
    ℝ × ℝ × List ℝ :=
  let level := st.1
  let trend := st.2.1
  let seasonal := st.2.2
  let i := iv.1
  let value := iv.2
  let prevLevel := level
  let level2 := 0.3 * (value / jsOr1 (seasonal.getD (i % L) 1)) +
    (1 - 0.3) * (level + trend)
  let trend2 := 0.1 * (level2 - prevLevel) + (1 - 0.1) * trend
  let seasonal2 := seasonal.set (i % L)
    (0.2 * (value / jsOr1 level2) + (1 - 0.2) * seasonal.getD (i % L) 1)
  (level2, trend2, seasonal2)

/-- `runHoltWinters` from `src/utils/forecasting.ts` (triple smoothing with
α=0.3, β=0.1, γ=0.2; seasonal length `L`). -/
noncomputable def runHoltWinters (values : List ℝ) (horizon : ℕ) (L : ℕ) :
    List ℝ :=
  let level0 := values.getD 0 0
  let seasonal0 := (List.range L).map fun i =>
    if i < min values.length L then values.getD i 0 / jsOr1 level0 else 1
  let init : ℝ × ℝ × List ℝ :=
    (level0, values.getD 1 0 - values.getD 0 0, seasonal0)
  let fin := values.enum.foldl (hwStep L) init
  (List.range horizon).map fun j =>
    max 0 ((fin.1 + (j + 1 : ℕ) * fin.2.1) *
      (fin.2.2.getD ((values.length + j) % L) 1))

/-- `runProphet` from `src/utils/forecasting.ts`: last-12 seasonal template
plus amplified average growth.  When the template is shorter than 12 and
the step index wraps past its end, the JavaScript read is `undefined` and
the projected value is `NaN`. -/
noncomputable def runProphet (values : List ℝ) (horizon : ℕ) : List JsNum :=
  let n := values.length
  let recentValues := values.drop (n - 12)
  let avgGrowth := (values.getD (n - 1) 0 - values.getD 0 0) / n
  (List.range horizon).map fun j =>
    jsMax (num 0)
      (jsAdd (jsIndex recentValues (j % 12)) (num (avgGrowth * 1.2 * (j + 1 : ℕ))))

/-- The `horizon` iterations of the `runArima` loop: each step regresses
the current value towards the history mean with coefficient 0.85, pushing
the clamped updated value. -/
noncomputable def arimaAux (mean : ℝ) : ℝ → ℕ → List ℝ
  | _, 0 => []
  | currentVal, h + 1 =>
      let c2 := mean + 0.85 * (currentVal - mean)
      max 0 c2 :: arimaAux mean c2 h

/-- `runArima` from `src/utils/forecasting.ts`. -/
noncomputable def runArima (values : List ℝ) (horizon : ℕ) : List ℝ :=
  let n := values.length
  arimaAux (values.sum / n) (values.getD (n - 1) 0) horizon

/-- `runLinear` from `src/utils/forecasting.ts`: OLS over period index
0..n−1, projected `horizon` steps and clamped at 0. -/
noncomputable def runLinear (values : List ℝ) (horizon : ℕ) : List ℝ :=
  let n := values.length
  let sumX := ((List.range n).map fun i => (i : ℝ)).sum
  let sumY := values.sum
  let sumXY := (values.enum.map fun p => (p.1 : ℝ) * p.2).sum
  let sumXX := ((List.range n).map fun i => (i : ℝ) * i).sum
  let slope := (n * sumXY - sumX * sumY) / (n * sumXX - sumX * sumX)
  let intercept := (sumY - slope * sumX) / n
  (List.range horizon).map fun j : ℕ =>
    max 0 (slope * ((n + j : ℕ) : ℝ) + intercept)

/-! ## Forecast orchestrator (`src/utils/forecasting.ts`) -/

/-- The historical prefix entry built by `calculateForecast`:
`historical = forecast = quantity`, `isForecast = false`. -/
def mkHistoricalPoint (d : DataPoint) : ForecastPoint :=
  { date := d.date, historical := some d.quantity,
    forecast := num d.quantity, isForecast := false }

/-- The `forecastValues.forEach` loop of `calculateForecast`: builds the
forecast-suffix points, one per raw value, with 1-based `step = i + 1`.
`advM d k` stands for the JavaScript date computation "`d` advanced by `k`
calendar months, printed as ISO date" (no claim depends on its value). -/
noncomputable def fcPoints (advM : String → ℕ → String) (lastDate : String)
    (multiplier stdDev : ℝ) : ℕ → List JsNum → List ForecastPoint
  | _, [] => []
  | i, val :: rest =>
      let step := i + 1
      let uncertainty := multiplier * stdDev * Real.sqrt step * 0.4
      { date := advM lastDate step,
        forecast := jsRound val,
        lowerBound := some (jsMax (num 0) (jsRound (jsSub val (num uncertainty)))),
        upperBound := some (jsRound (jsAdd val (num uncertainty))),
        isForecast := true } :: fcPoints advM lastDate multiplier stdDev (i + 1) rest

/-- The `switch (method)` dispatch of `calculateForecast` (the seasonal
length is the fixed `L = 12` of the orchestrator).  The `HOLT_WINTERS`
case is also the `default` of the source switch, which is unreachable
since `ForecastMethodology` is a closed enum. -/
noncomputable def dispatchMethod (values : List ℝ) (horizon : ℕ) :
    ForecastMethodology → List JsNum
  | ForecastMethodology.LINEAR => (runLinear values horizon).map num
  | ForecastMethodology.PROPHET => runProphet values horizon
  | ForecastMethodology.ARIMA => (runArima values horizon).map num
  | ForecastMethodology.HOLT_WINTERS => (runHoltWinters values horizon 12).map num

/-- `calculateForecast` from `src/utils/forecasting.ts`.  The `interval`
parameter of the source is the fixed literal type `'monthly'` and is only
consulted by the date computation abstracted as `advM`, so it is dropped. -/
noncomputable def calculateForecast (advM : String → ℕ → String)
    (historicalData : List DataPoint) (horizon : ℕ)
    (confidenceLevel : ℝ := 95)
    (method : ForecastMethodology := ForecastMethodology.HOLT_WINTERS) :
    List ForecastPoint :=
  if historicalData.length < 3 then []
  else
    let values := historicalData.map (·.quantity)
    let n := values.length
    let forecastValues : List JsNum := dispatchMethod values horizon method
    let results := historicalData.map mkHistoricalPoint
    let multiplier := getZMultiplier confidenceLevel
    let stdDev := getStdDev values
    let lastDate := ((historicalData.get? (n - 1)).map (·.date)).getD ""
    results ++ fcPoints advM lastDate multiplier stdDev 0 forecastValues

/-! ## Accuracy metrics, `src/utils/forecasting.ts` variant -/

namespace Forecasting

/-- Result record of the `src/utils/forecasting.ts` `calculateMetrics`.
`mape` divides by `sumActual` without a zero guard, so it (and the
`accuracy` derived from it) can be `NaN` or `Infinity`; the remaining
fields all have guarded denominators and stay finite. -/
structure ForecastMetrics where
  mape : JsNum
  rmse : ℝ
  bias : ℝ
  mad : ℝ
  accuracy : JsNum
  holdingCostRisk : ℝ
  stockoutRevenueRisk : ℝ

/-- The accumulation loop of `calculateMetrics`
(`sumError`, `sumAbsError`, `sumSqError`, `sumActual`), folded over the
index-aligned pairs (`zip` truncates at `min` of the lengths, exactly the
loop bound `n`). -/
def metricSums (pairs : List (ℝ × ℝ)) : ℝ × ℝ × ℝ × ℝ :=
  pairs.foldl
    (fun s af =>
      let error := af.2 - af.1
      (s.1 + error, s.2.1 + |error|, s.2.2.1 + error * error, s.2.2.2 + af.1))
    (0, 0, 0, 0)

/-- `calculateMetrics` from `src/utils/forecasting.ts`.  Note: MAPE is
`(sumAbsError / sumActual) * 100` (an unguarded weighted form, not a
per-pair percentage), and both financial risks are the literal `0`. -/
noncomputable def calculateMetrics (actual forecast : List ℝ)
    (_unitCost _sellingPrice : ℝ) : ForecastMetrics :=
  let n := min actual.length forecast.length
  let s := metricSums (actual.zip forecast)
  let sumError := s.1
  let sumAbsError := s.2.1
  let sumSqError := s.2.2.1
  let sumActual := s.2.2.2
  let mape : JsNum :=
    if 0 < n then jsMul (jsDiv (num sumAbsError) (num sumActual)) (num 100)
    else num 0
  { mape := mape,
    rmse := Real.sqrt (sumSqError / (if n = 0 then 1 else n : ℕ)),
    bias := sumError / jsOr1 sumActual * 100,
    mad := sumAbsError / (if n = 0 then 1 else n : ℕ),
    accuracy := jsMax (num 0) (jsSub (num 100) mape),
    holdingCostRisk := 0,
    stockoutRevenueRisk := 0 }

end Forecasting

/-! ## Accuracy metrics, `src/unnamed/part_001` variant -/

namespace Part001

/-- Result record of the `src/unnamed/part_001` `calculateMetrics`.  Every
division in that variant has a guarded nonzero denominator (`n = 0`
returns early, percentage terms are only accumulated for `actual ≠ 0`,
`bias` is guarded on `sumActual`), so all fields are finite reals. -/
structure ForecastMetrics where
  mape : ℝ
  rmse : ℝ
  bias : ℝ
  mad : ℝ
  accuracy : ℝ
  holdingCostRisk : ℝ
  stockoutRevenueRisk : ℝ

/-- The accumulation loop of the `part_001` `calculateMetrics`:
`(sumError, sumAbsError, sumSqError, sumPercError, sumActual,
stockoutUnits, overstockUnits)` over the index-aligned pairs. -/
noncomputable def metricSums (pairs : List (ℝ × ℝ)) :
    ℝ × ℝ × ℝ × ℝ × ℝ × ℝ × ℝ :=
  pairs.foldl
    (fun s af =>
      let error := af.2 - af.1
      (s.1 + error,
       s.2.1 + |error|,
       s.2.2.1 + error * error,
       s.2.2.2.1 + (if af.1 ≠ 0 then |error / af.1| else 0),
       s.2.2.2.2.1 + af.1,
       s.2.2.2.2.2.1 + (if error < 0 then |error| else 0),
       s.2.2.2.2.2.2 + (if error < 0 then 0 else error)))
    (0, 0, 0, 0, 0, 0, 0)

/-- `calculateMetrics` from `src/unnamed/part_001` (the variant of the
accuracy-metric module whose behaviour §4.5 of the specification
describes): per-pair MAPE that skips zero-actual pairs, guarded bias, and
the financial risk figures with a fixed 2% monthly holding rate. -/
noncomputable def calculateMetrics (actual forecast : List ℝ)
    (unitCost : ℝ := 50) (sellingPrice : ℝ := 100) : ForecastMetrics :=
  let n := min actual.length forecast.length
  if n = 0 then
    { mape := 0, rmse := 0, bias := 0, mad := 0, accuracy := 0,
      holdingCostRisk := 0, stockoutRevenueRisk := 0 }
  else
    let s := metricSums (actual.zip forecast)
    let sumError := s.1
    let sumAbsError := s.2.1
    let sumSqError := s.2.2.1
    let sumPercError := s.2.2.2.1
    let sumActual := s.2.2.2.2.1
    let stockoutUnits := s.2.2.2.2.2.1
    let overstockUnits := s.2.2.2.2.2.2
    let mape := sumPercError / n * 100
    let holdingRate : ℝ := 0.02
    { mape := mape,
      rmse := Real.sqrt (sumSqError / n),
      bias := if sumActual ≠ 0 then sumError / sumActual * 100 else 0,
      mad := sumAbsError / n,
      accuracy := max 0 (100 - mape),
      holdingCostRisk := overstockUnits * unitCost * holdingRate,
      stockoutRevenueRisk := stockoutUnits * (sellingPrice - unitCost) }

end Part001

/-! ## Supply-chain policy engine (`src/utils/supplyChain.ts`) -/

/-- `getZScore` from `src/utils/supplyChain.ts`: service level (fraction)
to safety-stock z-score, descending inclusive bands, fallback `0.5`. -/
noncomputable def getZScore (serviceLevel : ℝ) : ℝ :=
  if serviceLevel ≥ 0.999 then 3.09
  else if serviceLevel ≥ 0.99 then 2.33
  else if serviceLevel ≥ 0.98 then 2.05
  else if serviceLevel ≥ 0.95 then 1.645
  else if serviceLevel ≥ 0.90 then 1.28
  else if serviceLevel ≥ 0.85 then 1.04
  else if serviceLevel ≥ 0.80 then 0.84
  else 0.5

/-- The `safetyStock` constant of `calculateSupplyChainMetrics`:
`Math.round(z * historicalStdDev * Math.sqrt(adjustedLeadTime / 30))`
with `adjustedLeadTime = leadTimeDays * (1 + volatilityMultiplier)`. -/
noncomputable def scmSafetyStock (historicalStdDev leadTimeDays serviceLevel
    volatilityMultiplier : ℝ) : JsNum :=
  let z := getZScore serviceLevel
  let adjustedLeadTime := leadTimeDays * (1 + volatilityMultiplier)
  let leadTimePeriods := adjustedLeadTime / 30
  jsRound (jsMul (num (z * historicalStdDev)) (jsSqrt leadTimePeriods))

/-- The `reorderPoint` constant of `calculateSupplyChainMetrics`:
`Math.round(avgDailyDemand * adjustedLeadTime + safetyStock)`, where
`avgDailyDemand` is the average forecast value over the `isForecast`
points (length guarded by `|| 1`) divided by 30. -/
noncomputable def scmReorderPoint (forecast : List ForecastPoint)
    (historicalStdDev leadTimeDays serviceLevel volatilityMultiplier : ℝ) :
    JsNum :=
  let adjustedLeadTime := leadTimeDays * (1 + volatilityMultiplier)
  let forecastOnly := forecast.filter (·.isForecast)
  let forecastAvg := jsDiv (jsSum (forecastOnly.map (·.forecast)))
    (num (if forecastOnly.length = 0 then 1 else forecastOnly.length : ℕ))
  let avgDailyDemand := jsDiv forecastAvg (num 30)
  jsRound (jsAdd (jsMul avgDailyDemand (num adjustedLeadTime))
    (scmSafetyStock historicalStdDev leadTimeDays serviceLevel volatilityMultiplier))

/-- The `forecast.map` walk of `calculateSupplyChainMetrics`, with the two
pieces of mutable closure state made explicit: the 1-based
`forecastCounter` and the `runningInventory`.  `subD d` stands for the
JavaScript date computation "`d` shifted back by `leadTimeDays` days,
printed as ISO date" (no claim depends on its value). -/
noncomputable def scmGo (subD : String → String) (scenarios : List Scenario)
    (showOffset : Bool) (ss rp : JsNum) (onHand avgPrice avgCost : ℝ) :
    List ForecastPoint → ℕ → JsNum → List ForecastPoint
  | [], _, _ => []
  | p :: rest, forecastCounter, runningInventory =>
      if p.isForecast then
        let c2 := forecastCounter + 1
        let scenarioVal :=
          match scenarios.find? (fun s => s.month == c2) with
          | some s => jsRound (jsMul p.forecast (num s.multiplier))
          | none => p.forecast
        let inv2 := jsSub runningInventory scenarioVal
        { p with
          date := if showOffset then subD p.date else p.date,
          scenarioForecast := some scenarioVal,
          safetyStock := some ss,
          reorderPoint := some rp,
          projectedInventory := some inv2,
          projectedRevenue := some (jsRound (jsMul scenarioVal (num avgPrice))),
          projectedMargin := some (jsRound (jsMul scenarioVal (num (avgPrice - avgCost)))),
          inventoryValue := some (jsRound (jsMul inv2 (num avgCost))) } ::
          scmGo subD scenarios showOffset ss rp onHand avgPrice avgCost rest c2 inv2
      else
        { p with
          date := p.date,
          scenarioForecast := none,
          safetyStock := some ss,
          reorderPoint := some rp,
          projectedInventory := some (num onHand),
          projectedRevenue := none,
          projectedMargin := none,
          inventoryValue := some (jsRound (jsMul (num onHand) (num avgCost))) } ::
          scmGo subD scenarios showOffset ss rp onHand avgPrice avgCost rest
            forecastCounter runningInventory

/-- `calculateSupplyChainMetrics` from `src/utils/supplyChain.ts`. -/
noncomputable def calculateSupplyChainMetrics (subD : String → String)
    (forecast : List ForecastPoint)
    (historicalStdDev leadTimeDays serviceLevel onHand : ℝ)
    (scenarios : List Scenario := []) (showOffset : Bool := false)
    (volatilityMultiplier : ℝ := 0)
    (attributes : List ProductAttribute := []) : List ForecastPoint :=
  let safetyStock := scmSafetyStock historicalStdDev leadTimeDays serviceLevel
    volatilityMultiplier
  let reorderPoint := scmReorderPoint forecast historicalStdDev leadTimeDays
    serviceLevel volatilityMultiplier
  let avgPrice : ℝ := if 0 < attributes.length then
    (attributes.map (·.sellingPrice)).sum / attributes.length else 150
  let avgCost : ℝ := if 0 < attributes.length then
    (attributes.map (·.unitCost)).sum / attributes.length else 100
  scmGo subD scenarios showOffset safetyStock reorderPoint onHand avgPrice
    avgCost forecast 0 (num onHand)

/-! ## Pareto classifier (`src/utils/supplyChain.ts`)

`runParetoAnalysis` is an independent leaf that performs only field
arithmetic (sums, two guarded divisions, comparisons); it is embedded over
`ℚ` so that its concrete instances are decidable, which is faithful since
every JavaScript-number operation it performs is exact rational
arithmetic in the idealized-real model. -/

/-- Input row of `runParetoAnalysis`. -/
structure SkuVolume where
  sku : String
  totalVolume : ℚ
deriving DecidableEq

/-- Output row of `runParetoAnalysis`. -/
structure ParetoRow where
  sku : String
  totalVolume : ℚ
  grade : String
  share : ℚ
deriving DecidableEq

/-- The cumulative walk of `runParetoAnalysis` over the sorted rows. -/
def paretoGo (total : ℚ) : ℚ → List SkuVolume → List ParetoRow
  | _, [] => []
  | cumulative, item :: rest =>
      let c2 := cumulative + item.totalVolume
      let perc := c2 / (if total = 0 then 1 else total) * 100
      let grade := if perc ≤ 80 then "A" else if perc ≤ 95 then "B" else "C"
      { sku := item.sku, totalVolume := item.totalVolume, grade := grade,
        share := item.totalVolume / (if total = 0 then 1 else total) * 100 } ::
        paretoGo total c2 rest

/-- `runParetoAnalysis` from `src/utils/supplyChain.ts`.
`[...skuData].sort((a, b) => b.totalVolume - a.totalVolume)` is a stable
sort of a copy by descending volume; any stable sort computes the same
list, so it is modelled by insertion sort on the `≥`-by-volume relation. -/
def runParetoAnalysis (skuData : List SkuVolume) : List ParetoRow :=
  let sorted := List.insertionSort (fun a b => a.totalVolume ≥ b.totalVolume) skuData
  let total := (sorted.map (·.totalVolume)).sum
  paretoGo total 0 sorted

/-! ## Shared helper lemmas -/

theorem getZScore_pos (x : ℝ) : 0 < getZScore x := by
  unfold getZScore
  split_ifs <;> norm_num

theorem getZMultiplier_pos (x : ℝ) : 0 < getZMultiplier x := by
  unfold getZMultiplier
  split_ifs <;> norm_num

/-! ## Claims -/

set_option maxHeartbeats 1600000 in
/-- **C5** (amended).  `serviceLevelZScore` (`getZScore`) is monotonically
non-increasing as its input decreases over its whole domain;
`confidenceZMultiplier` (`getZMultiplier`) is so only on inputs ≥ 80 —
below the lowest band it falls back to the 95% default `1.96`, which
breaks monotonicity at the 80 boundary; the literal boundary values hold:
`getZMultiplier 99 = 2.576` and `getZScore 0.95 = 1.645`. -/
theorem C5_z_mappings_amended :
    (∀ x y : ℝ, x ≤ y → getZScore x ≤ getZScore y) ∧
    (∀ x y : ℝ, 80 ≤ x → x ≤ y → getZMultiplier x ≤ getZMultiplier y) ∧
    (∀ x : ℝ, x < 80 → getZMultiplier x = 1.96) ∧
    getZMultiplier 99 = 2.576 ∧ getZScore 0.95 = 1.645 := by
  refine ⟨?_, ?_, ?_, ?_, ?_⟩
  · intro x y hxy
    unfold getZScore
    split_ifs <;> linarith
  · intro x y hx hxy
    unfold getZMultiplier
    split_ifs <;> linarith
  · intro x hx
    unfold getZMultiplier
    split_ifs <;> first | rfl | (exfalso; linarith)
  · norm_num [getZMultiplier]
  · norm_num [getZScore]

/-- **C5** witness: the amended monotonicity statements applied at
concrete service levels 0.90 ≤ 0.99 and confidences 85 ≤ 92. -/
theorem C5_z_mappings_amended_witness :
    getZScore 0.90 ≤ getZScore 0.99 ∧
    getZMultiplier 85 ≤ getZMultiplier 92 ∧ getZMultiplier 75 = 1.96 :=
  ⟨C5_z_mappings_amended.1 0.90 0.99 (by norm_num),
   C5_z_mappings_amended.2.1 85 92 (by norm_num) (by norm_num),
   C5_z_mappings_amended.2.2.1 75 (by norm_num)⟩

/-- **C5** counterexample: the claim as stated is false — the
confidence-level mapping is not monotone over its whole domain, since at
input 79 (below the lowest 80-band) the fallback `1.96` exceeds the value
`1.28` returned at the larger input 80. -/
theorem C5_z_mappings_counterexample :
    (79 : ℝ) ≤ 80 ∧ getZMultiplier 80 < getZMultiplier 79 := by
  constructor
  · norm_num
  · norm_num [getZMultiplier]

/-! ### Pareto helper lemmas -/

instance : IsTotal SkuVolume (fun a b => a.totalVolume ≥ b.totalVolume) :=
  ⟨fun a b => le_total b.totalVolume a.totalVolume⟩

instance : IsTrans SkuVolume (fun a b => a.totalVolume ≥ b.totalVolume) :=
  ⟨fun _ _ _ hab hbc => le_trans hbc hab⟩

theorem paretoGo_map_skuVol (total : ℚ) :
    ∀ (l : List SkuVolume) (c : ℚ),
      (paretoGo total c l).map (fun r => (r.sku, r.totalVolume)) =
        l.map (fun s => (s.sku, s.totalVolume))
  | [], _ => rfl
  | _ :: rest, c => by
      simp only [paretoGo, List.map_cons, List.map]
      exact congrArg _ (paretoGo_map_skuVol total rest _)

theorem paretoGo_length (total : ℚ) (l : List SkuVolume) (c : ℚ) :
    (paretoGo total c l).length = l.length := by
  have := congrArg List.length (paretoGo_map_skuVol total l c)
  simpa using this

theorem paretoGo_grade (total : ℚ) :
    ∀ (l : List SkuVolume) (c : ℚ) (i : ℕ)
      (hi : i < (paretoGo total c l).length),
      ((paretoGo total c l).get ⟨i, hi⟩).grade =
        (if (c + (((paretoGo total c l).take (i + 1)).map
              (fun r => r.totalVolume)).sum) /
            (if total = 0 then 1 else total) * 100 ≤ 80 then "A"
         else if (c + (((paretoGo total c l).take (i + 1)).map
              (fun r => r.totalVolume)).sum) /
            (if total = 0 then 1 else total) * 100 ≤ 95 then "B" else "C")
  | [], c, i, hi => by simp [paretoGo] at hi
  | item :: rest, c, 0, hi => by
      simp [paretoGo]
  | item :: rest, c, i + 1, hi => by
      have hi' : i < (paretoGo total (c + item.totalVolume) rest).length := by
        simpa [paretoGo] using hi
      have ih := paretoGo_grade total rest (c + item.totalVolume) i hi'
      simpa [paretoGo, add_assoc] using ih

/-- **C8**.  `runParetoAnalysis` returns the items sorted by descending
`totalVolume`, its output is a permutation of its input on the
`(sku, totalVolume)` data (the input list itself is never mutated — the
embedding is pure, and the source sorts a copy `[...skuData]`), grades are
assigned by running cumulative percentage of the grand total with
inclusive boundaries (`A` iff ≤ 80, `B` iff ≤ 95, else `C`), and in
particular totals `[500, 300, 150, 50]` receive grades `A, A, B, C`. -/
theorem C8_runParetoAnalysis (skuData : List SkuVolume) :
    List.Sorted (fun a b : ℚ => b ≤ a)
      ((runParetoAnalysis skuData).map (fun r => r.totalVolume)) ∧
    ((runParetoAnalysis skuData).map (fun r => (r.sku, r.totalVolume))).Perm
      (skuData.map (fun s => (s.sku, s.totalVolume))) ∧
    (∀ i (hi : i < (runParetoAnalysis skuData).length),
      ((runParetoAnalysis skuData).get ⟨i, hi⟩).grade =
        (if (((runParetoAnalysis skuData).take (i + 1)).map
              (fun r => r.totalVolume)).sum /
            (if (skuData.map (fun s => s.totalVolume)).sum = 0 then 1
             else (skuData.map (fun s => s.totalVolume)).sum) * 100 ≤ 80
         then "A"
         else if (((runParetoAnalysis skuData).take (i + 1)).map
              (fun r => r.totalVolume)).sum /
            (if (skuData.map (fun s => s.totalVolume)).sum = 0 then 1
             else (skuData.map (fun s => s.totalVolume)).sum) * 100 ≤ 95
         then "B" else "C")) ∧
    (runParetoAnalysis [⟨"P1", 500⟩, ⟨"P2", 300⟩, ⟨"P3", 150⟩, ⟨"P4", 50⟩]).map
      (fun r => r.grade) = ["A", "A", "B", "C"] := by
  have hperm0 := List.perm_insertionSort
    (fun a b : SkuVolume => a.totalVolume ≥ b.totalVolume) skuData
  have hout : runParetoAnalysis skuData =
      paretoGo (((List.insertionSort
          (fun a b : SkuVolume => a.totalVolume ≥ b.totalVolume) skuData).map
        (fun s => s.totalVolume)).sum) 0
        (List.insertionSort
          (fun a b : SkuVolume => a.totalVolume ≥ b.totalVolume) skuData) := rfl
  have hmapskuvol := paretoGo_map_skuVol
    (((List.insertionSort
        (fun a b : SkuVolume => a.totalVolume ≥ b.totalVolume) skuData).map
      (fun s => s.totalVolume)).sum)
    (List.insertionSort
      (fun a b : SkuVolume => a.totalVolume ≥ b.totalVolume) skuData) 0
  have hvol : (runParetoAnalysis skuData).map (fun r => r.totalVolume) =
      (List.insertionSort
        (fun a b : SkuVolume => a.totalVolume ≥ b.totalVolume) skuData).map
        (fun s => s.totalVolume) := by
    have := congrArg (List.map Prod.snd) hmapskuvol
    rw [hout]
    simpa [List.map_map, Function.comp] using this
  have hT : ((List.insertionSort
      (fun a b : SkuVolume => a.totalVolume ≥ b.totalVolume) skuData).map
        (fun s => s.totalVolume)).sum =
      (skuData.map (fun s => s.totalVolume)).sum :=
    (hperm0.map (fun s => s.totalVolume)).sum_eq
  refine ⟨?_, ?_, ?_, ?_⟩
  · rw [hvol]
    exact List.Pairwise.map _ (fun a b hab => hab)
      (List.sorted_insertionSort
        (fun a b : SkuVolume => a.totalVolume ≥ b.totalVolume) skuData)
  · rw [hout, hmapskuvol]
    exact hperm0.map _
  · intro i hi
    have hi' : i < (paretoGo (((List.insertionSort
        (fun a b : SkuVolume => a.totalVolume ≥ b.totalVolume) skuData).map
      (fun s => s.totalVolume)).sum) 0
        (List.insertionSort
          (fun a b : SkuVolume => a.totalVolume ≥ b.totalVolume) skuData)).length := by
      rw [← hout]; exact hi
    have hg := paretoGo_grade (((List.insertionSort
        (fun a b : SkuVolume => a.totalVolume ≥ b.totalVolume) skuData).map
      (fun s => s.totalVolume)).sum)
      (List.insertionSort
        (fun a b : SkuVolume => a.totalVolume ≥ b.totalVolume) skuData) 0 i hi'
    rw [← hT]
    simp only [hout]
    simpa [zero_add] using hg
  · norm_num [runParetoAnalysis, List.insertionSort, List.orderedInsert, paretoGo]

/-- **C8** witness: the sortedness part of the theorem applied at a
concrete input. -/
theorem C8_runParetoAnalysis_witness :
    List.Sorted (fun a b : ℚ => b ≤ a)
      ((runParetoAnalysis [⟨"X", 3⟩, ⟨"Y", 7⟩]).map (fun r => r.totalVolume)) :=
  (C8_runParetoAnalysis [⟨"X", 3⟩, ⟨"Y", 7⟩]).1

/-! ### Accuracy-metric helper lemmas -/

/-- Summing `if p x then f x else 0` over a list equals summing `f` over
the sublist of elements satisfying `p`. -/
theorem sum_map_ite_eq_sum_filter {α : Type} (p : α → Prop) [DecidablePred p]
    (f : α → ℝ) :
    ∀ l : List α,
      (l.map fun x => if p x then f x else 0).sum =
        ((l.filter fun x => p x).map f).sum
  | [] => rfl
  | x :: xs => by
      by_cases hx : p x <;>
        simp [List.filter_cons, hx, sum_map_ite_eq_sum_filter p f xs]

/-- The seven accumulators of the `part_001` metrics loop, in closed form. -/
theorem Part001.metricSums_closed (pairs : List (ℝ × ℝ)) :
    Part001.metricSums pairs =
      ((pairs.map fun af => af.2 - af.1).sum,
       (pairs.map fun af => |af.2 - af.1|).sum,
       (pairs.map fun af => (af.2 - af.1) * (af.2 - af.1)).sum,
       (pairs.map fun af => if af.1 ≠ 0 then |(af.2 - af.1) / af.1| else 0).sum,
       (pairs.map fun af => af.1).sum,
       (pairs.map fun af => if af.2 - af.1 < 0 then |af.2 - af.1| else 0).sum,
       (pairs.map fun af => if af.2 - af.1 < 0 then 0 else af.2 - af.1).sum) := by
  have go : ∀ (l : List (ℝ × ℝ)) (s : ℝ × ℝ × ℝ × ℝ × ℝ × ℝ × ℝ),
      l.foldl
        (fun s af =>
          let error := af.2 - af.1
          (s.1 + error,
           s.2.1 + |error|,
           s.2.2.1 + error * error,
           s.2.2.2.1 + (if af.1 ≠ 0 then |error / af.1| else 0),
           s.2.2.2.2.1 + af.1,
           s.2.2.2.2.2.1 + (if error < 0 then |error| else 0),
           s.2.2.2.2.2.2 + (if error < 0 then 0 else error))) s =
      (s.1 + (l.map fun af => af.2 - af.1).sum,
       s.2.1 + (l.map fun af => |af.2 - af.1|).sum,
       s.2.2.1 + (l.map fun af => (af.2 - af.1) * (af.2 - af.1)).sum,
       s.2.2.2.1 +
         (l.map fun af => if af.1 ≠ 0 then |(af.2 - af.1) / af.1| else 0).sum,
       s.2.2.2.2.1 + (l.map fun af => af.1).sum,
       s.2.2.2.2.2.1 +
         (l.map fun af => if af.2 - af.1 < 0 then |af.2 - af.1| else 0).sum,
       s.2.2.2.2.2.2 +
         (l.map fun af => if af.2 - af.1 < 0 then 0 else af.2 - af.1).sum) := by
    intro l
    induction l with
    | nil => intro s; simp
    | cons af rest ih =>
        intro s
        simp only [List.foldl_cons, List.map_cons, List.sum_cons, ih]
        refine Prod.ext ?_ (Prod.ext ?_ (Prod.ext ?_ (Prod.ext ?_
          (Prod.ext ?_ (Prod.ext ?_ ?_))))) <;> simp <;> ring
  have h0 := go pairs (0, 0, 0, 0, 0, 0, 0)
  simpa [Part001.metricSums] using h0

/-- **C2**.  For at least one aligned pair, the `part_001`
`calculateMetrics` (the variant of the accuracy-metric module that
implements the per-pair percentage accumulation) accumulates
`|error/actual|` exactly over the aligned pairs with `actual ≠ 0`, and
returns `mape = 100 × sumAbsPercentError / n` with the aligned-pair count
`n ≥ 1` — in particular every division it performs has a nonzero
denominator, so no `NaN`/`Infinity` can arise. -/
theorem C2_part001_mape (actual forecast : List ℝ) (unitCost sellingPrice : ℝ)
    (h : 1 ≤ min actual.length forecast.length) :
    (Part001.calculateMetrics actual forecast unitCost sellingPrice).mape =
      100 * (((actual.zip forecast).filter fun af => af.1 ≠ 0).map
        fun af => |(af.2 - af.1) / af.1|).sum /
        (min actual.length forecast.length : ℕ) ∧
    ((min actual.length forecast.length : ℕ) : ℝ) ≠ 0 := by
  have hn : min actual.length forecast.length ≠ 0 := by omega
  refine ⟨?_, Nat.cast_ne_zero.mpr hn⟩
  rw [← sum_map_ite_eq_sum_filter (fun af : ℝ × ℝ => af.1 ≠ 0)
    (fun af => |(af.2 - af.1) / af.1|) (actual.zip forecast)]
  simp only [Part001.calculateMetrics, Part001.metricSums_closed, hn, if_false]
  ring

/-- **C2** witness: the theorem applied to `actual = [1, 2]`,
`forecast = [3, 1]` (errors 2 and −1, both actuals nonzero). -/
theorem C2_part001_mape_witness :
    (Part001.calculateMetrics [1, 2] [3, 1] 10 25).mape =
      100 * ((([(1 : ℝ), 2].zip [3, 1]).filter fun af => af.1 ≠ 0).map
        fun af => |(af.2 - af.1) / af.1|).sum /
        (min (List.length [(1 : ℝ), 2]) (List.length [(3 : ℝ), 1]) : ℕ) :=
  (C2_part001_mape [1, 2] [3, 1] 10 25 (by simp)).1

/-- **C3**.  For at least one aligned pair, the `part_001`
`calculateMetrics` returns
`holdingCostRisk = overstockUnits × unitCost × 0.02` with
`overstockUnits` the sum of the positive errors `forecast − actual`, and
`stockoutRevenueRisk = stockoutUnits × (sellingPrice − unitCost)` with
`stockoutUnits` the sum of `|error|` over the pairs with negative error. -/
theorem C3_part001_risks (actual forecast : List ℝ) (unitCost sellingPrice : ℝ)
    (h : 1 ≤ min actual.length forecast.length) :
    (Part001.calculateMetrics actual forecast unitCost sellingPrice).holdingCostRisk =
      ((((actual.zip forecast).filter fun af => 0 < af.2 - af.1).map
        fun af => af.2 - af.1).sum) * unitCost * 0.02 ∧
    (Part001.calculateMetrics actual forecast unitCost sellingPrice).stockoutRevenueRisk =
      ((((actual.zip forecast).filter fun af => af.2 - af.1 < 0).map
        fun af => |af.2 - af.1|).sum) * (sellingPrice - unitCost) := by
  have hn : min actual.length forecast.length ≠ 0 := by omega
  have hover : ((actual.zip forecast).map
      fun af => if af.2 - af.1 < 0 then 0 else af.2 - af.1).sum =
      ((((actual.zip forecast).filter fun af => 0 < af.2 - af.1).map
        fun af => af.2 - af.1).sum) := by
    rw [← sum_map_ite_eq_sum_filter (fun af : ℝ × ℝ => 0 < af.2 - af.1)
      (fun af => af.2 - af.1) (actual.zip forecast)]
    refine congrArg List.sum (List.map_congr_left ?_)
    intro af _
    split_ifs <;> linarith
  have hstock : ((actual.zip forecast).map
      fun af => if af.2 - af.1 < 0 then |af.2 - af.1| else 0).sum =
      ((((actual.zip forecast).filter fun af => af.2 - af.1 < 0).map
        fun af => |af.2 - af.1|).sum) :=
    sum_map_ite_eq_sum_filter (fun af : ℝ × ℝ => af.2 - af.1 < 0)
      (fun af => |af.2 - af.1|) (actual.zip forecast)
  constructor
  · simp only [Part001.calculateMetrics, Part001.metricSums_closed, hn, if_false]
    rw [hover]
  · simp only [Part001.calculateMetrics, Part001.metricSums_closed, hn, if_false]
    rw [hstock]

/-- **C3** witness: the theorem applied to `actual = [1, 2]`,
`forecast = [3, 1]` (overstock 2, stockout 1). -/
theorem C3_part001_risks_witness :
    (Part001.calculateMetrics [1, 2] [3, 1] 10 25).holdingCostRisk =
      (((([(1 : ℝ), 2].zip [3, 1]).filter fun af => 0 < af.2 - af.1).map
        fun af => af.2 - af.1).sum) * 10 * 0.02 :=
  (C3_part001_risks [1, 2] [3, 1] 10 25 (by simp)).1

/-- The four accumulators of the `src/utils/forecasting.ts` metrics loop,
in closed form. -/
theorem Forecasting.sumsClosed (pairs : List (ℝ × ℝ)) :
    Forecasting.metricSums pairs =
      ((pairs.map fun af => af.2 - af.1).sum,
       (pairs.map fun af => |af.2 - af.1|).sum,
       (pairs.map fun af => (af.2 - af.1) * (af.2 - af.1)).sum,
       (pairs.map fun af => af.1).sum) := by
  have go : ∀ (l : List (ℝ × ℝ)) (s : ℝ × ℝ × ℝ × ℝ),
      l.foldl
        (fun s af =>
          let error := af.2 - af.1
          (s.1 + error, s.2.1 + |error|, s.2.2.1 + error * error,
           s.2.2.2 + af.1)) s =
      (s.1 + (l.map fun af => af.2 - af.1).sum,
       s.2.1 + (l.map fun af => |af.2 - af.1|).sum,
       s.2.2.1 + (l.map fun af => (af.2 - af.1) * (af.2 - af.1)).sum,
       s.2.2.2 + (l.map fun af => af.1).sum) := by
    intro l
    induction l with
    | nil => intro s; simp
    | cons af rest ih =>
        intro s
        simp only [List.foldl_cons, List.map_cons, List.sum_cons, ih]
        refine Prod.ext ?_ (Prod.ext ?_ (Prod.ext ?_ ?_)) <;> simp <;> ring
  have h0 := go pairs (0, 0, 0, 0)
  simpa [Forecasting.metricSums] using h0

/-- Sums over the self-zip of a list vanish for any function that is zero
on the diagonal. -/
theorem zip_self_map_sum_eq_zero (f : ℝ × ℝ → ℝ) (hf : ∀ x : ℝ, f (x, x) = 0) :
    ∀ l : List ℝ, ((l.zip l).map f).sum = 0
  | [] => rfl
  | x :: xs => by
      simp [List.zip_cons_cons, hf, zip_self_map_sum_eq_zero f hf xs]

/-- The first components of the self-zip sum back to the list's sum. -/
theorem zip_self_map_fst_sum :
    ∀ l : List ℝ, ((l.zip l).map fun af => af.1).sum = l.sum
  | [] => rfl
  | x :: xs => by
      simp [List.zip_cons_cons, zip_self_map_fst_sum xs]

set_option maxHeartbeats 800000 in
/-- **C9** (amended).  The perfect-forecast round trip
`calculateMetrics(actual, actual, …)` yields
`mape = rmse = bias = mad = 0`, `accuracy = 100` and zero financial risks
— for the `part_001` variant whenever `actual` is nonempty (an empty
input takes the all-zero early return with `accuracy = 0`), and for the
`src/utils/forecasting.ts` variant whenever `actual` is empty or has
nonzero total (a nonempty all-zero-total input makes its unguarded
`mape = (0/0)·100` a `NaN`). -/
theorem C9_perfect_roundtrip_amended (actual : List ℝ)
    (unitCost sellingPrice : ℝ) :
    (actual ≠ [] →
      Part001.calculateMetrics actual actual unitCost sellingPrice =
        { mape := 0, rmse := 0, bias := 0, mad := 0, accuracy := 100,
          holdingCostRisk := 0, stockoutRevenueRisk := 0 }) ∧
    (actual.sum ≠ 0 ∨ actual = [] →
      Forecasting.calculateMetrics actual actual unitCost sellingPrice =
        { mape := num 0, rmse := 0, bias := 0, mad := 0, accuracy := num 100,
          holdingCostRisk := 0, stockoutRevenueRisk := 0 }) := by
  have h1 : ((actual.zip actual).map fun af => af.2 - af.1).sum = 0 :=
    zip_self_map_sum_eq_zero _ (fun x => by ring) actual
  have h2 : ((actual.zip actual).map fun af => |af.2 - af.1|).sum = 0 :=
    zip_self_map_sum_eq_zero _ (fun x => by simp) actual
  have h3 : ((actual.zip actual).map
      fun af => (af.2 - af.1) * (af.2 - af.1)).sum = 0 :=
    zip_self_map_sum_eq_zero _ (fun x => by ring) actual
  have h4 : ((actual.zip actual).map
      fun af => if af.1 ≠ 0 then |(af.2 - af.1) / af.1| else 0).sum = 0 :=
    zip_self_map_sum_eq_zero _ (fun x => by simp) actual
  have h5 : ((actual.zip actual).map fun af => af.1).sum = actual.sum :=
    zip_self_map_fst_sum actual
  have h6 : ((actual.zip actual).map
      fun af => if af.2 - af.1 < 0 then |af.2 - af.1| else 0).sum = 0 :=
    zip_self_map_sum_eq_zero _ (fun x => by simp) actual
  have h7 : ((actual.zip actual).map
      fun af => if af.2 - af.1 < 0 then 0 else af.2 - af.1).sum = 0 :=
    zip_self_map_sum_eq_zero _ (fun x => by simp) actual
  constructor
  · intro hne
    have hn : min actual.length actual.length ≠ 0 := by
      simpa [List.length_eq_zero] using hne
    simp only [Part001.calculateMetrics, Part001.metricSums_closed, hn, if_false]
    rw [h1, h2, h3, h4, h5, h6, h7]
    simp only [Part001.ForecastMetrics.mk.injEq]
    refine ⟨by simp, by simp, ?_, by simp, by simp, by ring, by ring⟩
    by_cases hs : actual.sum ≠ 0 <;> simp [hs]
  · intro hsum
    rcases hsum with hs | hemp
    · have hne : actual ≠ [] := by
        intro h; rw [h] at hs; simp at hs
      have hn : 0 < min actual.length actual.length := by
        have := List.length_pos.mpr hne
        omega
      have hne0 : min actual.length actual.length ≠ 0 := by omega
      simp only [Forecasting.calculateMetrics, Forecasting.sumsClosed,
        hn, if_true]
      rw [h1, h2, h3, h5]
      simp only [Forecasting.ForecastMetrics.mk.injEq]
      refine ⟨?_, ?_, ?_, ?_, ?_, by ring, by ring⟩
      · rw [jsDiv_num_of_ne 0 actual.sum hs]
        simp
      · simp [hne0]
      · simp [jsOr1, hs]
      · simp [hne0]
      · rw [jsDiv_num_of_ne 0 actual.sum hs]
        simp [jsSub, jsNeg, jsAdd, jsMax]
    · subst hemp
      simp only [Forecasting.calculateMetrics, Forecasting.sumsClosed]
      norm_num [Forecasting.ForecastMetrics.mk.injEq, jsSub, jsNeg, jsAdd,
        jsMax, jsOr1]

/-- **C9** counterexample: the claim as stated ("for every series
`actual`") is false on both variants of `calculateMetrics` — the
`part_001` variant returns `accuracy = 0` (not 100) on the empty series,
and the `src/utils/forecasting.ts` variant returns a `NaN` MAPE (not 0)
on the all-zero series `[0]`, because its `(sumAbsError/sumActual)·100`
is `0/0`. -/
theorem C9_perfect_roundtrip_counterexample :
    (Part001.calculateMetrics [] [] 1 1).accuracy = 0 ∧
    (Forecasting.calculateMetrics [0] [0] 1 1).mape = JsNum.nan := by
  constructor
  · simp [Part001.calculateMetrics]
  · simp only [Forecasting.calculateMetrics, Forecasting.sumsClosed]
    norm_num [jsDiv, jsMul]

/-- **C9** witness: the amended round trip applied at the concrete
nonzero series `[5]`. -/
theorem C9_perfect_roundtrip_amended_witness :
    Part001.calculateMetrics [5] [5] 2 3 =
      { mape := 0, rmse := 0, bias := 0, mad := 0, accuracy := 100,
        holdingCostRisk := 0, stockoutRevenueRisk := 0 } ∧
    Forecasting.calculateMetrics [5] [5] 2 3 =
      { mape := num 0, rmse := 0, bias := 0, mad := 0, accuracy := num 100,
        holdingCostRisk := 0, stockoutRevenueRisk := 0 } :=
  ⟨(C9_perfect_roundtrip_amended [5] 2 3).1 (by simp),
   (C9_perfect_roundtrip_amended [5] 2 3).2 (Or.inl (by norm_num))⟩

/-! ### Forecast-structure helper lemmas -/

theorem arimaAux_length (mean : ℝ) :
    ∀ (c : ℝ) (h : ℕ), (arimaAux mean c h).length = h
  | _, 0 => rfl
  | c, h + 1 => by simp [arimaAux, arimaAux_length mean _ h]

theorem runHoltWinters_length (values : List ℝ) (horizon L : ℕ) :
    (runHoltWinters values horizon L).length = horizon := by
  simp [runHoltWinters]

theorem runProphet_length (values : List ℝ) (horizon : ℕ) :
    (runProphet values horizon).length = horizon := by
  rw [runProphet]
  rw [List.length_map, List.length_range]

theorem runArima_length (values : List ℝ) (horizon : ℕ) :
    (runArima values horizon).length = horizon := by
  simp [runArima, arimaAux_length]

theorem runLinear_length (values : List ℝ) (horizon : ℕ) :
    (runLinear values horizon).length = horizon := by
  rw [runLinear]
  rw [List.length_map, List.length_range]

theorem fcPoints_length (advM : String → ℕ → String) (lastDate : String)
    (multiplier stdDev : ℝ) :
    ∀ (i : ℕ) (vals : List JsNum),
      (fcPoints advM lastDate multiplier stdDev i vals).length = vals.length
  | _, [] => rfl
  | i, _ :: rest => by
      simp [fcPoints, fcPoints_length advM lastDate multiplier stdDev (i + 1) rest]

theorem fcPoints_isForecast (advM : String → ℕ → String) (lastDate : String)
    (multiplier stdDev : ℝ) :
    ∀ (i : ℕ) (vals : List JsNum)
      (p : ForecastPoint),
      p ∈ fcPoints advM lastDate multiplier stdDev i vals → p.isForecast = true
  | _, [], _, hp => by simp [fcPoints] at hp
  | i, v :: rest, p, hp => by
      rcases (List.mem_cons).1 hp with h | h
      · rw [h]
      · exact fcPoints_isForecast advM lastDate multiplier stdDev (i + 1) rest p h

/-- Whatever the method, `calculateForecast` dispatches to a raw value list
of length `horizon`. -/
theorem dispatchMethod_length (values : List ℝ) (horizon : ℕ)
    (method : ForecastMethodology) :
    (dispatchMethod values horizon method).length = horizon := by
  cases method <;>
    simp [dispatchMethod, runLinear_length, runProphet_length,
      runArima_length, runHoltWinters_length]

/-- **C1**.  For at least 3 history points and a positive horizon,
`calculateForecast` returns `|H| + horizon` points whose first `|H|`
entries echo the history (`historical = forecast = quantity`, original
order, `isForecast = false`) and whose remaining entries are exactly
`horizon` points flagged `isForecast = true`; with fewer than 3 points it
returns the empty sequence. -/
theorem C1_calculateForecast_structure (advM : String → ℕ → String)
    (historicalData : List DataPoint) (horizon : ℕ) (confidenceLevel : ℝ)
    (method : ForecastMethodology) :
    (3 ≤ historicalData.length → 0 < horizon →
      (calculateForecast advM historicalData horizon confidenceLevel
          method).length = historicalData.length + horizon ∧
      (calculateForecast advM historicalData horizon confidenceLevel
          method).take historicalData.length =
        historicalData.map (fun d =>
          { date := d.date, historical := some d.quantity,
            forecast := num d.quantity, isForecast := false }) ∧
      ((calculateForecast advM historicalData horizon confidenceLevel
          method).drop historicalData.length).length = horizon ∧
      (∀ p ∈ (calculateForecast advM historicalData horizon confidenceLevel
          method).drop historicalData.length, p.isForecast = true)) ∧
    (historicalData.length < 3 →
      calculateForecast advM historicalData horizon confidenceLevel
        method = []) := by
  constructor
  · intro h3 _
    have hnotlt : ¬ historicalData.length < 3 := not_lt.mpr h3
    have hmaplen : (historicalData.map mkHistoricalPoint).length =
        historicalData.length := List.length_map _ _
    simp only [calculateForecast, hnotlt, if_false]
    refine ⟨?_, ?_, ?_, ?_⟩
    · rw [List.length_append, hmaplen, fcPoints_length,
        dispatchMethod_length]
    · rw [List.take_left' hmaplen]
      rfl
    · rw [List.drop_left' hmaplen, fcPoints_length, dispatchMethod_length]
    · intro p hp
      rw [List.drop_left' hmaplen] at hp
      exact fcPoints_isForecast _ _ _ _ _ _ _ hp
  · intro hlt
    simp [calculateForecast, hlt]

/-- **C1** witness: the theorem applied to a concrete 3-point history with
horizon 2 (lengths 5 = 3 + 2) and to a concrete 2-point history (empty
output). -/
theorem C1_calculateForecast_structure_witness :
    (calculateForecast (fun d _ => d)
      [⟨"2024-01-01", "S", "C", 10⟩, ⟨"2024-02-01", "S", "C", 12⟩,
       ⟨"2024-03-01", "S", "C", 14⟩] 2 95
      ForecastMethodology.HOLT_WINTERS).length = 5 ∧
    calculateForecast (fun d _ => d)
      [⟨"2024-01-01", "S", "C", 10⟩, ⟨"2024-02-01", "S", "C", 12⟩] 2 95
      ForecastMethodology.HOLT_WINTERS = [] := by
  constructor
  · exact ((C1_calculateForecast_structure (fun d _ => d) _ 2 95
      ForecastMethodology.HOLT_WINTERS).1 (by simp) (by norm_num)).1
  · exact (C1_calculateForecast_structure (fun d _ => d) _ 2 95
      ForecastMethodology.HOLT_WINTERS).2 (by simp)

/-! ### Non-negativity of the forecast methods -/

theorem runHoltWinters_nonneg (values : List ℝ) (horizon L : ℕ) :
    ∀ x ∈ runHoltWinters values horizon L, 0 ≤ x := by
  intro x hx
  rw [runHoltWinters] at hx
  rcases List.mem_map.1 hx with ⟨j, -, hj⟩
  rw [← hj]
  exact le_max_left 0 _

theorem arimaAux_nonneg (mean : ℝ) :
    ∀ (c : ℝ) (h : ℕ), ∀ x ∈ arimaAux mean c h, 0 ≤ x
  | _, 0, x, hx => by simp [arimaAux] at hx
  | c, h + 1, x, hx => by
      rcases (List.mem_cons).1 hx with hh | hh
      · rw [hh]; exact le_max_left 0 _
      · exact arimaAux_nonneg mean _ h x hh

theorem runArima_nonneg (values : List ℝ) (horizon : ℕ) :
    ∀ x ∈ runArima values horizon, 0 ≤ x := by
  intro x hx
  rw [runArima] at hx
  exact arimaAux_nonneg _ _ _ x hx

theorem runLinear_nonneg (values : List ℝ) (horizon : ℕ) :
    ∀ x ∈ runLinear values horizon, 0 ≤ x := by
  intro x hx
  rw [runLinear] at hx
  rcases List.mem_map.1 hx with ⟨j, -, hj⟩
  rw [← hj]
  exact le_max_left 0 _

/-- When the seasonal template covers every wrapped index — at least 12
history points, or a horizon no longer than the history — every Prophet
value is a clamped real, hence a non-negative number. -/
theorem runProphet_nonneg (values : List ℝ) (horizon : ℕ)
    (hcov : 12 ≤ values.length ∨ horizon ≤ values.length) :
    ∀ y ∈ runProphet values horizon, ∃ x : ℝ, y = num x ∧ 0 ≤ x := by
  intro y hy
  rw [runProphet] at hy
  rcases List.mem_map.1 hy with ⟨j, hjmem, hj⟩
  have hjlt : j < horizon := List.mem_range.1 hjmem
  have hidx : j % 12 < (values.drop (values.length - 12)).length := by
    rw [List.length_drop]
    have h12 : j % 12 < 12 := Nat.mod_lt _ (by norm_num)
    have hle : j % 12 ≤ j := Nat.mod_le _ _
    omega
  rcases List.get?_eq_get hidx with hv
  rw [← hj]
  rw [jsIndex, hv]
  refine ⟨_, rfl, le_max_left 0 _⟩

set_option maxHeartbeats 800000 in
/-- **C4** (amended).  For any series of length ≥ 3 and positive horizon,
each method returns exactly `horizon` values; the Holt-Winters, ARIMA and
linear projections are always non-negative reals, and so are the Prophet
values whenever the series has at least 12 points or the horizon does not
exceed the series length — outside that regime Prophet's seasonal lookup
indexes past its template and produces `NaN` (see the counterexample). -/
theorem C4_methods_nonneg_amended (values : List ℝ) (horizon : ℕ)
    (_h3 : 3 ≤ values.length) (_hh : 0 < horizon) :
    ((runHoltWinters values horizon 12).length = horizon ∧
      ∀ x ∈ runHoltWinters values horizon 12, 0 ≤ x) ∧
    ((runArima values horizon).length = horizon ∧
      ∀ x ∈ runArima values horizon, 0 ≤ x) ∧
    ((runLinear values horizon).length = horizon ∧
      ∀ x ∈ runLinear values horizon, 0 ≤ x) ∧
    ((runProphet values horizon).length = horizon ∧
      ((12 ≤ values.length ∨ horizon ≤ values.length) →
        ∀ y ∈ runProphet values horizon, ∃ x : ℝ, y = num x ∧ 0 ≤ x)) :=
  ⟨⟨runHoltWinters_length values horizon 12, runHoltWinters_nonneg values horizon 12⟩,
   ⟨runArima_length values horizon, runArima_nonneg values horizon⟩,
   ⟨runLinear_length values horizon, runLinear_nonneg values horizon⟩,
   ⟨runProphet_length values horizon,
    fun hcov => runProphet_nonneg values horizon hcov⟩⟩

/-- **C4** witness: the amended theorem applied to the 3-point series
`[1, 1, 1]` with horizon 2 (which the Prophet coverage condition admits
since 2 ≤ 3). -/
theorem C4_methods_nonneg_amended_witness :
    (runLinear [1, 1, 1] 2).length = 2 ∧
    (∀ y ∈ runProphet [1, 1, 1] 2, ∃ x : ℝ, y = num x ∧ 0 ≤ x) :=
  ⟨(C4_methods_nonneg_amended [1, 1, 1] 2 (by simp) (by norm_num)).2.2.1.1,
   (C4_methods_nonneg_amended [1, 1, 1] 2 (by simp)
      (by norm_num)).2.2.2.2 (Or.inr (by simp))⟩

/-- **C4** counterexample: the claim as stated is false for the Prophet
method — on the 3-point series `[1, 1, 1]` with horizon 4, the 4th
projected value reads the seasonal template out of bounds and is `NaN`,
not a non-negative number. -/
theorem C4_methods_nonneg_counterexample :
    ¬ ∀ y ∈ runProphet [1, 1, 1] 4, ∃ x : ℝ, y = num x ∧ 0 ≤ x := by
  intro h
  have hmem : JsNum.nan ∈ runProphet [1, 1, 1] 4 := by
    rw [runProphet]
    refine List.mem_map.mpr ⟨3, by norm_num, ?_⟩
    rfl
  rcases h _ hmem with ⟨x, hx, -⟩
  exact JsNum.noConfusion hx

/-! ### Confidence-bound helper lemmas -/

theorem getStdDev_nonneg (values : List ℝ) : 0 ≤ getStdDev values := by
  rw [getStdDev]
  split_ifs
  · norm_num
  · exact Real.sqrt_nonneg _

/-- Every point emitted by the forecast-suffix loop on clamped real values
carries real bounds in the order `0 ≤ lowerBound ≤ forecast ≤ upperBound`,
provided the uncertainty scale is non-negative. -/
theorem fcPoints_bounds (advM : String → ℕ → String) (lastDate : String)
    (multiplier stdDev : ℝ) (hm : 0 ≤ multiplier) (hs : 0 ≤ stdDev) :
    ∀ (i : ℕ) (vals : List JsNum),
      (∀ v ∈ vals, ∃ x : ℝ, v = num x ∧ 0 ≤ x) →
      ∀ p ∈ fcPoints advM lastDate multiplier stdDev i vals,
        ∃ lb f ub : ℝ, p.lowerBound = some (num lb) ∧ p.forecast = num f ∧
          p.upperBound = some (num ub) ∧ 0 ≤ lb ∧ lb ≤ f ∧ f ≤ ub
  | _, [], _, _, hp => by simp [fcPoints] at hp
  | i, v :: vals, hvals, p, hp => by
      rcases (List.mem_cons).1 hp with hh | hh
      · rcases hvals v (List.mem_cons_self v vals) with ⟨x, hvx, hx⟩
        have hu : 0 ≤ multiplier * stdDev * Real.sqrt (i + 1 : ℕ) * 0.4 :=
          mul_nonneg (mul_nonneg (mul_nonneg hm hs) (Real.sqrt_nonneg _))
            (by norm_num)
        subst hh
        simp only [fcPoints, hvx]
        refine ⟨max 0 (⌊x - multiplier * stdDev * Real.sqrt (i + 1 : ℕ) * 0.4
            + 1/2⌋ : ℤ), (⌊x + 1/2⌋ : ℤ),
          (⌊x + multiplier * stdDev * Real.sqrt (i + 1 : ℕ) * 0.4 + 1/2⌋ : ℤ),
          by simp, by simp, by simp, le_max_left 0 _, ?_, ?_⟩
        · have hfge : (0 : ℝ) ≤ (⌊x + 1/2⌋ : ℤ) := by
            have : (0 : ℤ) ≤ ⌊x + 1/2⌋ := Int.floor_nonneg.mpr (by linarith)
            exact_mod_cast this
          refine max_le hfge ?_
          have : (⌊x - multiplier * stdDev * Real.sqrt (i + 1 : ℕ) * 0.4
              + 1/2⌋ : ℤ) ≤ ⌊x + 1/2⌋ := Int.floor_le_floor (by linarith)
          exact_mod_cast this
        · have : (⌊x + 1/2⌋ : ℤ) ≤
              ⌊x + multiplier * stdDev * Real.sqrt (i + 1 : ℕ) * 0.4 + 1/2⌋ :=
            Int.floor_le_floor (by linarith)
          exact_mod_cast this
      · exact fcPoints_bounds advM lastDate multiplier stdDev hm hs (i + 1)
          vals (fun w hw => hvals w (List.mem_cons_of_mem v hw)) p hh

/-- Under the Prophet coverage condition, every dispatched raw forecast
value is a non-negative real. -/
theorem dispatchMethod_nonneg (values : List ℝ) (horizon : ℕ)
    (method : ForecastMethodology)
    (hcov : method ≠ ForecastMethodology.PROPHET ∨ 12 ≤ values.length ∨
      horizon ≤ values.length) :
    ∀ v ∈ dispatchMethod values horizon method, ∃ x : ℝ, v = num x ∧ 0 ≤ x := by
  intro v hv
  cases method with
  | PROPHET =>
      rcases hcov with hne | hcov'
      · exact absurd rfl hne
      · exact runProphet_nonneg values horizon hcov' v hv
  | HOLT_WINTERS =>
      rw [dispatchMethod] at hv
      rcases List.mem_map.1 hv with ⟨x, hxmem, hx⟩
      exact ⟨x, hx.symm, runHoltWinters_nonneg values horizon 12 x hxmem⟩
  | ARIMA =>
      rw [dispatchMethod] at hv
      rcases List.mem_map.1 hv with ⟨x, hxmem, hx⟩
      exact ⟨x, hx.symm, runArima_nonneg values horizon x hxmem⟩
  | LINEAR =>
      rw [dispatchMethod] at hv
      rcases List.mem_map.1 hv with ⟨x, hxmem, hx⟩
      exact ⟨x, hx.symm, runLinear_nonneg values horizon x hxmem⟩

/-- The forecast value stored in the `j`-th suffix point is the rounded
`j`-th raw value. -/
theorem fcPoints_get_forecast (advM : String → ℕ → String) (lastDate : String)
    (multiplier stdDev : ℝ) :
    ∀ (i j : ℕ) (vals : List JsNum) (h : j < vals.length)
      (h2 : j < (fcPoints advM lastDate multiplier stdDev i vals).length),
      ((fcPoints advM lastDate multiplier stdDev i vals).get ⟨j, h2⟩).forecast =
        jsRound (vals.get ⟨j, h⟩)
  | _, 0, _ :: _, _, _ => rfl
  | i, j + 1, v :: vals, h, h2 =>
      fcPoints_get_forecast advM lastDate multiplier stdDev (i + 1) j vals
        (Nat.lt_of_succ_lt_succ h)
        (by
          have hA := fcPoints_length advM lastDate multiplier stdDev i (v :: vals)
          have hB := fcPoints_length advM lastDate multiplier stdDev (i + 1) vals
          have hC : (v :: vals).length = vals.length + 1 := rfl
          omega)

/-- **C10** (amended).  For a history of length ≥ 3 and positive horizon,
every forecast point of `calculateForecast` carries real bounds with
`0 ≤ lowerBound ≤ forecast ≤ upperBound` — for Holt-Winters, ARIMA and
linear always, and for Prophet whenever the history has at least 12
points or the horizon does not exceed the history length (outside that
regime Prophet produces `NaN` points, see the counterexample). -/
theorem C10_bounds_order_amended (advM : String → ℕ → String)
    (historicalData : List DataPoint) (horizon : ℕ) (confidenceLevel : ℝ)
    (method : ForecastMethodology)
    (h3 : 3 ≤ historicalData.length) (_hh : 0 < horizon)
    (hcov : method ≠ ForecastMethodology.PROPHET ∨
      12 ≤ historicalData.length ∨ horizon ≤ historicalData.length) :
    ∀ p ∈ (calculateForecast advM historicalData horizon confidenceLevel
        method).drop historicalData.length,
      ∃ lb f ub : ℝ, p.lowerBound = some (num lb) ∧ p.forecast = num f ∧
        p.upperBound = some (num ub) ∧ 0 ≤ lb ∧ lb ≤ f ∧ f ≤ ub := by
  intro p hp
  have hnotlt : ¬ historicalData.length < 3 := not_lt.mpr h3
  have hmaplen : (historicalData.map mkHistoricalPoint).length =
      historicalData.length := List.length_map _ _
  simp only [calculateForecast, hnotlt, if_false] at hp
  rw [List.drop_left' hmaplen] at hp
  have hlen : (historicalData.map fun x => x.quantity).length =
      historicalData.length := List.length_map _ _
  refine fcPoints_bounds advM _ _ _
    (le_of_lt (getZMultiplier_pos confidenceLevel)) (getStdDev_nonneg _) 0 _
    ?_ p hp
  apply dispatchMethod_nonneg
  rw [hlen]
  exact hcov

/-- **C10** witness: the amended theorem applied to the first forecast
point produced for a concrete 3-point history with horizon 2 under
Holt-Winters. -/
theorem C10_bounds_order_amended_witness :
    ∃ lb f ub : ℝ,
      (((calculateForecast (fun d _ => d)
          [⟨"2024-01-01", "S", "C", 10⟩, ⟨"2024-02-01", "S", "C", 12⟩,
           ⟨"2024-03-01", "S", "C", 14⟩] 2 95
          ForecastMethodology.HOLT_WINTERS).drop
          (List.length ([⟨"2024-01-01", "S", "C", 10⟩,
            ⟨"2024-02-01", "S", "C", 12⟩,
            ⟨"2024-03-01", "S", "C", 14⟩] : List DataPoint))).getD 0
          { date := "", forecast := num 0, isForecast := false }).lowerBound =
        some (num lb) ∧
      (((calculateForecast (fun d _ => d)
          [⟨"2024-01-01", "S", "C", 10⟩, ⟨"2024-02-01", "S", "C", 12⟩,
           ⟨"2024-03-01", "S", "C", 14⟩] 2 95
          ForecastMethodology.HOLT_WINTERS).drop
          (List.length ([⟨"2024-01-01", "S", "C", 10⟩,
            ⟨"2024-02-01", "S", "C", 12⟩,
            ⟨"2024-03-01", "S", "C", 14⟩] : List DataPoint))).getD 0
          { date := "", forecast := num 0, isForecast := false }).forecast =
        num f ∧
      (((calculateForecast (fun d _ => d)
          [⟨"2024-01-01", "S", "C", 10⟩, ⟨"2024-02-01", "S", "C", 12⟩,
           ⟨"2024-03-01", "S", "C", 14⟩] 2 95
          ForecastMethodology.HOLT_WINTERS).drop
          (List.length ([⟨"2024-01-01", "S", "C", 10⟩,
            ⟨"2024-02-01", "S", "C", 12⟩,
            ⟨"2024-03-01", "S", "C", 14⟩] : List DataPoint))).getD 0
          { date := "", forecast := num 0, isForecast := false }).upperBound =
        some (num ub) ∧
      0 ≤ lb ∧ lb ≤ f ∧ f ≤ ub := by
  have hlen : 0 < ((calculateForecast (fun d _ => d)
      [⟨"2024-01-01", "S", "C", 10⟩, ⟨"2024-02-01", "S", "C", 12⟩,
       ⟨"2024-03-01", "S", "C", 14⟩] 2 95
      ForecastMethodology.HOLT_WINTERS).drop
      (List.length ([⟨"2024-01-01", "S", "C", 10⟩,
        ⟨"2024-02-01", "S", "C", 12⟩,
        ⟨"2024-03-01", "S", "C", 14⟩] : List DataPoint))).length := by
    have hd : (calculateForecast (fun d _ => d)
        [⟨"2024-01-01", "S", "C", 10⟩, ⟨"2024-02-01", "S", "C", 12⟩,
         ⟨"2024-03-01", "S", "C", 14⟩] 2 95
        ForecastMethodology.HOLT_WINTERS).drop
        (List.length ([⟨"2024-01-01", "S", "C", 10⟩,
          ⟨"2024-02-01", "S", "C", 12⟩,
          ⟨"2024-03-01", "S", "C", 14⟩] : List DataPoint)) =
        fcPoints (fun d _ => d) "2024-03-01" (getZMultiplier 95)
          (getStdDev [(10 : ℝ), 12, 14]) 0
          ((runHoltWinters [(10 : ℝ), 12, 14] 2 12).map num) := rfl
    rw [hd, fcPoints_length, List.length_map, runHoltWinters_length]
    norm_num
  refine C10_bounds_order_amended (fun d _ => d)
    [⟨"2024-01-01", "S", "C", 10⟩, ⟨"2024-02-01", "S", "C", 12⟩,
     ⟨"2024-03-01", "S", "C", 14⟩] 2 95
    ForecastMethodology.HOLT_WINTERS (by norm_num) (by norm_num)
    (Or.inl (by decide)) _ ?_
  rw [List.getD_eq_getElem _ _ hlen]
  exact List.getElem_mem hlen

/-- **C10** counterexample: the claim as stated is false — with a 3-point
history and horizon 4 under the Prophet method, the 4th forecast point's
value is `NaN` (out-of-bounds seasonal read), so its fields are not reals
in the order `0 ≤ lowerBound ≤ forecast ≤ upperBound`. -/
theorem C10_bounds_order_counterexample :
    ¬ ∀ p ∈ (calculateForecast (fun d _ => d)
        [⟨"2024-01-01", "S", "C", 1⟩, ⟨"2024-02-01", "S", "C", 1⟩,
         ⟨"2024-03-01", "S", "C", 1⟩] 4 95
        ForecastMethodology.PROPHET).drop 3,
      ∃ lb f ub : ℝ, p.lowerBound = some (num lb) ∧ p.forecast = num f ∧
        p.upperBound = some (num ub) ∧ 0 ≤ lb ∧ lb ≤ f ∧ f ≤ ub := by
  intro h
  have hvlen : (3 : ℕ) <
      (runProphet [(1 : ℝ), 1, 1] 4).length := by
    rw [runProphet_length]
    norm_num
  have hflen : (3 : ℕ) < (fcPoints (fun d _ => d) "2024-03-01"
      (getZMultiplier 95) (getStdDev [(1 : ℝ), 1, 1]) 0
      (runProphet [(1 : ℝ), 1, 1] 4)).length := by
    rw [fcPoints_length, runProphet_length]
    norm_num
  have hd : (calculateForecast (fun d _ => d)
      [⟨"2024-01-01", "S", "C", 1⟩, ⟨"2024-02-01", "S", "C", 1⟩,
       ⟨"2024-03-01", "S", "C", 1⟩] 4 95
      ForecastMethodology.PROPHET).drop 3 =
      fcPoints (fun d _ => d) "2024-03-01" (getZMultiplier 95)
        (getStdDev [(1 : ℝ), 1, 1]) 0 (runProphet [(1 : ℝ), 1, 1] 4) := rfl
  have hp := List.get_mem _ 3 hflen
  rw [hd] at h
  rcases h _ hp with ⟨lb, f, ub, -, hf, -⟩
  have hnan : (runProphet [(1 : ℝ), 1, 1] 4).get ⟨3, hvlen⟩ = JsNum.nan := rfl
  rw [fcPoints_get_forecast (fun d _ => d) "2024-03-01" (getZMultiplier 95)
    (getStdDev [(1 : ℝ), 1, 1]) 0 3 (runProphet [(1 : ℝ), 1, 1] 4) hvlen hflen,
    hnan] at hf
  exact JsNum.noConfusion hf

/-! ### Supply-chain walk helper lemmas -/

theorem scmGo_constants (subD : String → String) (scenarios : List Scenario)
    (showOffset : Bool) (ss rp : JsNum) (onHand avgPrice avgCost : ℝ) :
    ∀ (l : List ForecastPoint) (c : ℕ) (inv : JsNum),
      ∀ q ∈ scmGo subD scenarios showOffset ss rp onHand avgPrice avgCost
          l c inv,
        q.safetyStock = some ss ∧ q.reorderPoint = some rp
  | [], _, _, _, hq => by simp [scmGo] at hq
  | p :: rest, c, inv, q, hq => by
      rw [scmGo] at hq
      by_cases hp : p.isForecast
      · rw [if_pos hp] at hq
        rcases (List.mem_cons).1 hq with h | h
        · rw [h]
          exact ⟨rfl, rfl⟩
        · exact scmGo_constants subD scenarios showOffset ss rp onHand
            avgPrice avgCost rest _ _ q h
      · rw [if_neg hp] at hq
        rcases (List.mem_cons).1 hq with h | h
        · rw [h]
          exact ⟨rfl, rfl⟩
        · exact scmGo_constants subD scenarios showOffset ss rp onHand
            avgPrice avgCost rest _ _ q h

/-- A `jsSum` over values that are all non-negative reals is a
non-negative real. -/
theorem jsSum_nonneg (l : List JsNum)
    (hl : ∀ v ∈ l, ∃ x : ℝ, v = num x ∧ 0 ≤ x) :
    ∃ S : ℝ, jsSum l = num S ∧ 0 ≤ S := by
  have go : ∀ (l : List JsNum), (∀ v ∈ l, ∃ x : ℝ, v = num x ∧ 0 ≤ x) →
      ∀ a : ℝ, ∃ S : ℝ, l.foldl jsAdd (num a) = num (a + S) ∧ 0 ≤ S := by
    intro l
    induction l with
    | nil => intro _ a; exact ⟨0, by simp, le_refl 0⟩
    | cons v rest ih =>
        intro hl a
        rcases hl v (List.mem_cons_self v rest) with ⟨x, hvx, hx⟩
        rcases ih (fun w hw => hl w (List.mem_cons_of_mem v hw)) (a + x) with
          ⟨S, hS, hS0⟩
        refine ⟨x + S, ?_, by linarith⟩
        rw [List.foldl_cons, hvx, jsAdd_num, hS]
        ring_nf
  rcases go l hl 0 with ⟨S, hS, hS0⟩
  exact ⟨S, by simpa [jsSum] using hS, hS0⟩

set_option maxHeartbeats 1000000 in
/-- **C7**.  With all other inputs fixed (and in the intended domain:
non-negative standard deviation, lead time and forecast values), the
`safetyStock` and `reorderPoint` computed by `calculateSupplyChainMetrics`
are non-decreasing in the volatility multiplier over `[0, ∞)`, and within
a single run they are constant: every returned point carries the same
`safetyStock` and the same `reorderPoint`. -/
theorem C7_volatility_monotone (subD : String → String)
    (forecast : List ForecastPoint)
    (historicalStdDev leadTimeDays serviceLevel onHand : ℝ)
    (scenarios : List Scenario) (showOffset : Bool)
    (attributes : List ProductAttribute) (v1 v2 : ℝ)
    (hσ : 0 ≤ historicalStdDev) (hL : 0 ≤ leadTimeDays)
    (hv1 : 0 ≤ v1) (hv12 : v1 ≤ v2)
    (hf : ∀ p ∈ forecast, ∃ x : ℝ, p.forecast = num x ∧ 0 ≤ x) :
    ∃ s1 s2 r1 r2 : ℝ,
      scmSafetyStock historicalStdDev leadTimeDays serviceLevel v1 = num s1 ∧
      scmSafetyStock historicalStdDev leadTimeDays serviceLevel v2 = num s2 ∧
      scmReorderPoint forecast historicalStdDev leadTimeDays serviceLevel v1 =
        num r1 ∧
      scmReorderPoint forecast historicalStdDev leadTimeDays serviceLevel v2 =
        num r2 ∧
      s1 ≤ s2 ∧ r1 ≤ r2 ∧
      (∀ q ∈ calculateSupplyChainMetrics subD forecast historicalStdDev
          leadTimeDays serviceLevel onHand scenarios showOffset v1 attributes,
        q.safetyStock =
          some (scmSafetyStock historicalStdDev leadTimeDays serviceLevel v1) ∧
        q.reorderPoint =
          some (scmReorderPoint forecast historicalStdDev leadTimeDays
            serviceLevel v1)) := by
  have hv2 : 0 ≤ v2 := le_trans hv1 hv12
  have hz : 0 ≤ getZScore serviceLevel * historicalStdDev :=
    mul_nonneg (le_of_lt (getZScore_pos serviceLevel)) hσ
  have hltp1 : 0 ≤ leadTimeDays * (1 + v1) / 30 :=
    div_nonneg (mul_nonneg hL (by linarith)) (by norm_num)
  have hltp2 : 0 ≤ leadTimeDays * (1 + v2) / 30 :=
    div_nonneg (mul_nonneg hL (by linarith)) (by norm_num)
  have hltple : leadTimeDays * (1 + v1) / 30 ≤ leadTimeDays * (1 + v2) / 30 := by
    have := mul_le_mul_of_nonneg_left (by linarith : (1 : ℝ) + v1 ≤ 1 + v2) hL
    linarith
  have hss1 : scmSafetyStock historicalStdDev leadTimeDays serviceLevel v1 =
      num ((⌊getZScore serviceLevel * historicalStdDev *
        Real.sqrt (leadTimeDays * (1 + v1) / 30) + 1/2⌋ : ℤ) : ℝ) := by
    simp only [scmSafetyStock]
    rw [jsSqrt_of_nonneg _ hltp1, jsMul_num, jsRound_num]
  have hss2 : scmSafetyStock historicalStdDev leadTimeDays serviceLevel v2 =
      num ((⌊getZScore serviceLevel * historicalStdDev *
        Real.sqrt (leadTimeDays * (1 + v2) / 30) + 1/2⌋ : ℤ) : ℝ) := by
    simp only [scmSafetyStock]
    rw [jsSqrt_of_nonneg _ hltp2, jsMul_num, jsRound_num]
  have hs12 : ((⌊getZScore serviceLevel * historicalStdDev *
      Real.sqrt (leadTimeDays * (1 + v1) / 30) + 1/2⌋ : ℤ) : ℝ) ≤
      ((⌊getZScore serviceLevel * historicalStdDev *
        Real.sqrt (leadTimeDays * (1 + v2) / 30) + 1/2⌋ : ℤ) : ℝ) := by
    have hsq := Real.sqrt_le_sqrt hltple
    have := mul_le_mul_of_nonneg_left hsq hz
    exact_mod_cast Int.floor_le_floor (by linarith)
  rcases jsSum_nonneg (((forecast.filter (·.isForecast)).map (·.forecast)))
      (by
        intro v hv
        rcases List.mem_map.1 hv with ⟨p, hpmem, hpv⟩
        rcases hf p (List.mem_of_mem_filter hpmem) with ⟨x, hx, hx0⟩
        exact ⟨x, by rw [← hpv, hx], hx0⟩) with ⟨S, hS, hS0⟩
  have hkpos : (0 : ℝ) <
      ((if (forecast.filter (·.isForecast)).length = 0 then 1
        else (forecast.filter (·.isForecast)).length : ℕ) : ℝ) := by
    have : 0 < (if (forecast.filter (·.isForecast)).length = 0 then 1
        else (forecast.filter (·.isForecast)).length : ℕ) := by
      split_ifs with h0
      · norm_num
      · exact Nat.pos_of_ne_zero h0
    exact_mod_cast this
  have havg : 0 ≤ S /
      ((if (forecast.filter (·.isForecast)).length = 0 then 1
        else (forecast.filter (·.isForecast)).length : ℕ) : ℝ) / 30 :=
    div_nonneg (div_nonneg hS0 (le_of_lt hkpos)) (by norm_num)
  have hrp : ∀ v : ℝ, 0 ≤ v →
      scmReorderPoint forecast historicalStdDev leadTimeDays serviceLevel v =
      num ((⌊S /
        ((if (forecast.filter (·.isForecast)).length = 0 then 1
          else (forecast.filter (·.isForecast)).length : ℕ) : ℝ) / 30 *
        (leadTimeDays * (1 + v)) +
        ((⌊getZScore serviceLevel * historicalStdDev *
          Real.sqrt (leadTimeDays * (1 + v) / 30) + 1/2⌋ : ℤ) : ℝ) + 1/2⌋ : ℤ) : ℝ) := by
    intro v hv
    have hltp : 0 ≤ leadTimeDays * (1 + v) / 30 :=
      div_nonneg (mul_nonneg hL (by linarith)) (by norm_num)
    simp only [scmReorderPoint, scmSafetyStock, hS]
    rw [jsSqrt_of_nonneg _ hltp, jsMul_num, jsRound_num,
      jsDiv_num_of_ne _ _ (ne_of_gt hkpos),
      jsDiv_num_of_ne _ _ (by norm_num : (30 : ℝ) ≠ 0), jsMul_num,
      jsAdd_num, jsRound_num]
  refine ⟨_, _, _, _, hss1, hss2, hrp v1 hv1, hrp v2 hv2, hs12, ?_, ?_⟩
  · have hmul := mul_le_mul_of_nonneg_left
      (mul_le_mul_of_nonneg_left (by linarith : (1 : ℝ) + v1 ≤ 1 + v2) hL)
      havg
    exact_mod_cast Int.floor_le_floor (by linarith)
  · intro q hq
    exact scmGo_constants subD scenarios showOffset _ _ onHand _ _
      forecast 0 (num onHand) q hq

/-- **C7** witness: the theorem applied to a single forecast point of
value 30, lead time 30 days, service level 0.95, volatilities 0 ≤ 1. -/
theorem C7_volatility_monotone_witness :
    ∃ s1 s2 r1 r2 : ℝ,
      scmSafetyStock 1 30 0.95 0 = num s1 ∧
      scmSafetyStock 1 30 0.95 1 = num s2 ∧
      scmReorderPoint [{ date := "d", forecast := num 30, isForecast := true }]
        1 30 0.95 0 = num r1 ∧
      scmReorderPoint [{ date := "d", forecast := num 30, isForecast := true }]
        1 30 0.95 1 = num r2 ∧
      s1 ≤ s2 ∧ r1 ≤ r2 ∧
      (∀ q ∈ calculateSupplyChainMetrics (fun d => d)
          [{ date := "d", forecast := num 30, isForecast := true }]
          1 30 0.95 0 [] false 0 [],
        q.safetyStock = some (scmSafetyStock 1 30 0.95 0) ∧
        q.reorderPoint = some (scmReorderPoint
          [{ date := "d", forecast := num 30, isForecast := true }]
          1 30 0.95 0)) :=
  C7_volatility_monotone (fun d => d)
    [{ date := "d", forecast := num 30, isForecast := true }]
    1 30 0.95 0 [] false [] 0 1 (by norm_num) (by norm_num) le_rfl
    (by norm_num)
    (by
      intro p hp
      rcases List.mem_singleton.1 hp with rfl
      exact ⟨30, rfl, by norm_num⟩)

/-! ### Scenario-application helper lemma -/

set_option maxRecDepth 8000 in
theorem scmGo_scenarioForecast (subD : String → String) (s : Scenario)
    (showOffset : Bool) (ss rp : JsNum) (onHand avgPrice avgCost : ℝ) :
    ∀ (l : List ForecastPoint) (c : ℕ) (inv : JsNum) (i : ℕ),
      ((scmGo subD [s] showOffset ss rp onHand avgPrice avgCost l c
          inv).get? i).map (fun q => q.scenarioForecast) =
        (l.get? i).map (fun p =>
          if p.isForecast then
            some (if s.month =
                c + ((l.take (i + 1)).filter (fun q => q.isForecast)).length
              then jsRound (jsMul p.forecast (num s.multiplier))
              else p.forecast)
          else none)
  | [], c, inv, i => by simp [scmGo]
  | p :: rest, c, inv, 0 => by
      by_cases hp : p.isForecast
      · rw [scmGo, if_pos hp]
        simp only [List.get?_cons_zero, Option.map_some, List.take_succ_cons,
          List.take_zero, List.filter_cons, hp, if_pos hp, List.filter_nil,
          List.length_cons, List.length_nil, if_true]
        by_cases hm : s.month = c + 1
        · have hbeq : (s.month == c + 1) = true := by simpa using hm
          simp [List.find?, hbeq, hm, hp]
        · have hbeq : (s.month == c + 1) = false := by simpa using hm
          simp [List.find?, hbeq, hm, hp]
      · rw [scmGo, if_neg hp]
        simp [hp]
  | p :: rest, c, inv, i + 1 => by
      by_cases hp : p.isForecast
      · rw [scmGo, if_pos hp]
        simp only [List.get?_cons_succ]
        rw [scmGo_scenarioForecast subD s showOffset ss rp onHand avgPrice
          avgCost rest (c + 1)
          (jsSub inv (match List.find? (fun t => t.month == c + 1) [s] with
            | some t => jsRound (jsMul p.forecast (num t.multiplier))
            | none => p.forecast)) i]
        simp only [List.take_succ_cons, List.filter_cons, hp, ite_true,
          List.length_cons]
        have harith : c + (((rest.take (i + 1)).filter
            (fun q => q.isForecast)).length + 1) =
            c + 1 + ((rest.take (i + 1)).filter
              (fun q => q.isForecast)).length := by omega
        simp only [harith]
      · rw [scmGo, if_neg hp]
        simp only [List.get?_cons_succ]
        rw [scmGo_scenarioForecast subD s showOffset ss rp onHand avgPrice
          avgCost rest c inv i]
        simp only [List.take_succ_cons, List.filter_cons, hp, if_neg hp]
        simp [hp]

theorem scmGo_length (subD : String → String) (scenarios : List Scenario)
    (showOffset : Bool) (ss rp : JsNum) (onHand avgPrice avgCost : ℝ) :
    ∀ (l : List ForecastPoint) (c : ℕ) (inv : JsNum),
      (scmGo subD scenarios showOffset ss rp onHand avgPrice avgCost
        l c inv).length = l.length
  | [], _, _ => rfl
  | p :: rest, c, inv => by
      rw [scmGo]
      by_cases hp : p.isForecast
      · rw [if_pos hp]
        simp [scmGo_length subD scenarios showOffset ss rp onHand avgPrice
          avgCost rest]
      · rw [if_neg hp]
        simp [scmGo_length subD scenarios showOffset ss rp onHand avgPrice
          avgCost rest]

/-- **C6**.  For a single scenario whose 1-based month lies within the
horizon, `calculateSupplyChainMetrics` multiplies (and rounds) exactly the
`month`-th forecast point's `scenarioForecast`; every other forecast point
carries its unmodified forecast value as `scenarioForecast`, and
historical points carry none. -/
theorem C6_scenario_application (subD : String → String)
    (forecast : List ForecastPoint)
    (historicalStdDev leadTimeDays serviceLevel onHand : ℝ)
    (showOffset : Bool) (volatilityMultiplier : ℝ)
    (attributes : List ProductAttribute) (s : Scenario)
    (_hm1 : 1 ≤ s.month)
    (_hm2 : s.month ≤ (forecast.filter (fun q => q.isForecast)).length) :
    (calculateSupplyChainMetrics subD forecast historicalStdDev leadTimeDays
      serviceLevel onHand [s] showOffset volatilityMultiplier
      attributes).length = forecast.length ∧
    ∀ i : ℕ,
      ((calculateSupplyChainMetrics subD forecast historicalStdDev
        leadTimeDays serviceLevel onHand [s] showOffset volatilityMultiplier
        attributes).get? i).map (fun q => q.scenarioForecast) =
        (forecast.get? i).map (fun p =>
          if p.isForecast then
            some (if s.month =
                ((forecast.take (i + 1)).filter (fun q => q.isForecast)).length
              then jsRound (jsMul p.forecast (num s.multiplier))
              else p.forecast)
          else none) := by
  constructor
  · simp only [calculateSupplyChainMetrics]
    exact scmGo_length _ _ _ _ _ _ _ _ forecast 0 (num onHand)
  · intro i
    simp only [calculateSupplyChainMetrics]
    rw [scmGo_scenarioForecast]
    simp only [Nat.zero_add]

/-- **C6** witness: the theorem applied to one historical and two
forecast points with the scenario `{month := 2, multiplier := 1.5}`. -/
theorem C6_scenario_application_witness :
    (calculateSupplyChainMetrics (fun d => d)
      [{ date := "h", forecast := num 5, isForecast := false },
       { date := "f1", forecast := num 7, isForecast := true },
       { date := "f2", forecast := num 9, isForecast := true }]
      1 30 0.95 100 [⟨"s1", "shock", 2, 1.5⟩] false 0 []).length =
      List.length
        ([{ date := "h", forecast := num 5, isForecast := false },
          { date := "f1", forecast := num 7, isForecast := true },
          { date := "f2", forecast := num 9, isForecast := true }] :
          List ForecastPoint) :=
  (C6_scenario_application (fun d => d)
    [{ date := "h", forecast := num 5, isForecast := false },
     { date := "f1", forecast := num 7, isForecast := true },
     { date := "f2", forecast := num 9, isForecast := true }]
    1 30 0.95 100 false 0 [] ⟨"s1", "shock", 2, 1.5⟩
    (by norm_num) (by norm_num [List.filter])).1
